import Mathlib

/-!
Formal model of the AndroidDemo native layer.

The repository has two C++ source files:

* `app/src/main/cpp/demo/systemfonts/systemfonts.cpp` — the directory
  reporter `load_fonts_info(directory)` together with the helper `join`;
* `app/src/main/cpp/demo/jni.cpp` — the JNI bridge
  `Java_androidx_appcompat_demo_MainActivity_loadFontsInfo`, which converts
  the incoming `jstring` to `std::string`, calls `load_fonts_info` and
  converts the result back with `NewStringUTF`.

The filesystem is external state.  We embed it as an explicit value of type
`Fs`: the answers the OS gives for the one path that `load_fonts_info`
inspects (`std::filesystem::exists`, `std::filesystem::is_directory`) and
the outcome of iterating the directory (`directory_iterator`), which either
yields a list of entries or throws a `filesystem_error` whose `what()`
message is the carried string.  Each directory entry is embedded as the
observations the C++ code makes of it: its filename, what kind of object it
is on disk (including symlinks, which `directory_entry::is_regular_file` /
`is_directory` resolve), and the result of `std::filesystem::file_size`
(`some s` on success, `none` when the call throws).
-/

/-- Resolved type of a filesystem object after following symlinks, as
`std::filesystem::status` reports it: a regular file, a directory, or any
other object (device, socket, fifo, ...). -/
inductive FileType where
  | regular
  | directory
  | other
deriving DecidableEq

/-- What a directory entry actually is on disk, before any symlink
resolution: a regular file, a directory, a symbolic link (carrying the
resolved type of its target, or `none` for a dangling link), or some other
special object (device, socket, fifo, ...). -/
inductive RawKind where
  | regular
  | directory
  | symlink (target : Option FileType)
  | special
deriving DecidableEq

/-- One immediate child of the listed directory, as observed by the C++
enumeration lambda: `name` is `entry.path().filename().generic_string()`;
`rawKind` is what the entry is on disk; `size` is the result of
`std::filesystem::file_size(entry.path())` — `some s` when the call
returns `s`, `none` when it throws (the value is only consulted on the
regular-file branch). -/
structure DirEntry where
  name : String
  rawKind : RawKind
  size : Option Nat
deriving DecidableEq

/-- Type of the object a `directory_entry` refers to after following
symlinks, i.e. the `file_type` of `entry.status()`.  Per the C++ standard,
`directory_entry::status()` behaves like `std::filesystem::status(path())`,
which follows symbolic links; a dangling link yields no resolved type
(`file_not_found`), embedded here as `none`. -/
def DirEntry.statusType (e : DirEntry) : Option FileType :=
  match e.rawKind with
  | .regular => some .regular
  | .directory => some .directory
  | .symlink t => t
  | .special => some .other

/-- Embeds `entry.is_regular_file()`, which the C++ standard defines as
`std::filesystem::is_regular_file(status())` — it follows symlinks, so a
symlink whose target is a regular file answers `true`. -/
def DirEntry.is_regular_file (e : DirEntry) : Bool :=
  e.statusType = some FileType.regular

/-- Embeds `entry.is_directory()`, which the C++ standard defines as
`std::filesystem::is_directory(status())` — it follows symlinks, so a
symlink whose target is a directory answers `true`. -/
def DirEntry.is_directory (e : DirEntry) : Bool :=
  e.statusType = some FileType.directory

/-- The answers the filesystem gives for the one path that
`load_fonts_info` inspects: whether it exists, whether it is a directory,
and the outcome of enumerating it.  `entries = .error msg` embeds a
`filesystem_error` thrown during the walk (caught by the function's outer
`catch`), with `msg` standing for `e.what()`. -/
structure Fs where
  path_exists : Bool
  is_directory : Bool
  entries : Except String (List DirEntry)

/-- Embeds the `static std::string join(std::span<std::string>,
std::string_view)` helper of systemfonts.cpp: empty input gives `""`,
otherwise the first element followed by `sep ++ item` for each remaining
item, accumulated left to right exactly as the C++ loop streams them. -/
def join (arr : List String) (sep : String) : String :=
  match arr with
  | [] => ""
  | x :: xs => xs.foldl (fun acc item => acc ++ sep ++ item) x

/-- Embeds the per-entry lambda passed to `std::transform` in
`load_fonts_info`.  The C++ streams the filename, then branches on
`entry.is_regular_file()` / `entry.is_directory()`.

On the regular-file branch it executes
`oss << " -> " << std::filesystem::file_size(entry.path());` inside a
`try`.  Since C++17 the left operand of `<<` is sequenced before the
right one, so `" -> "` is already written to the stream before
`file_size` is evaluated; when `file_size` throws, the `catch` block
appends `" -> 无法读取文件大小"` after it, so the failure line carries the
`" -> "` separator twice.  The `none` case below reproduces this
faithfully. -/
def renderEntry (e : DirEntry) : String :=
  e.name ++
    (if e.is_regular_file then
      match e.size with
      | some s => " -> " ++ toString s ++ " Bytes"
      | none => " -> " ++ " -> 无法读取文件大小"
    else if e.is_directory then " -> [目录]"
    else " -> [其他类型]")

/-- Embeds `std::string load_fonts_info(const std::string &directory)` of
systemfonts.cpp.  `fs` is the state of the filesystem at `directory`
during the call.  The branch order mirrors the source: the existence
check, the directory check, the enumeration (whose failure is the outer
`catch` returning the aggregate error string), the empty check, and
finally the report assembled exactly as the `result` stream is. -/
def load_fonts_info (directory : String) (fs : Fs) : String :=
  if !fs.path_exists then
    "错误: 目录 '" ++ directory ++ "' 不存在"
  else if !fs.is_directory then
    "错误: '" ++ directory ++ "' 不是一个目录"
  else
    match fs.entries with
    | .error e => "访问目录时发生错误: " ++ e
    | .ok entries =>
      let fontfiles := entries.map renderEntry
      if fontfiles.isEmpty then
        "目录 '" ++ directory ++ "' 中没有找到任何文件"
      else
        "目录: " ++ directory ++ "\n" ++ "找到 " ++ toString fontfiles.length ++
          " 个项目:\n\n" ++ join fontfiles "\n"

/-- Embeds the caller-owned Java string handle of the JNI boundary, as the
text it denotes.  `GetStringUTFChars` / `NewStringUTF` move between this
and the reporter's native string. -/
structure JString where
  utf : String
deriving DecidableEq

/-- Embeds `string_from_jstring` of jni.cpp: borrow the UTF chars, copy
them into a `std::string`, release the borrow, return the copy — i.e. the
text carried by the handle. -/
def string_from_jstring (j : JString) : String :=
  j.utf

/-- Embeds `env->NewStringUTF(s.c_str())`: a fresh caller-owned handle
carrying the text `s`. -/
def newStringUTF (s : String) : JString :=
  ⟨s⟩

/-- Embeds the exported bridge
`Java_androidx_appcompat_demo_MainActivity_loadFontsInfo` of jni.cpp:
convert the incoming handle, call `load_fonts_info`, convert the result
back.  `fs` is the filesystem state, threaded to the reporter. -/
def Java_androidx_appcompat_demo_MainActivity_loadFontsInfo
    (fs : Fs) (directory : JString) : JString :=
  newStringUTF (load_fonts_info (string_from_jstring directory) fs)

example :
    renderEntry ⟨"a.txt", .regular, some 12⟩ = "a.txt -> 12 Bytes" := by decide

example :
    load_fonts_info "/tmp/x"
      ⟨true, true, .ok [⟨"a.txt", .regular, some 12⟩, ⟨"b", .directory, none⟩]⟩ =
      "目录: /tmp/x\n找到 2 个项目:\n\na.txt -> 12 Bytes\nb -> [目录]" := by decide

/-! ## Helper lemmas (shared) -/

/-- Unfolding of the success case: path exists, is a directory, the
enumeration yields a non-empty entry list. -/
theorem load_fonts_info_ok (d : String) (fs : Fs) (entries : List DirEntry)
    (h1 : fs.path_exists = true) (h2 : fs.is_directory = true)
    (h3 : fs.entries = .ok entries) (h4 : entries ≠ []) :
    load_fonts_info d fs =
      "目录: " ++ d ++ "\n" ++ "找到 " ++ toString (entries.map renderEntry).length ++
        " 个项目:\n\n" ++ join (entries.map renderEntry) "\n" := by
  obtain ⟨e, es, rfl⟩ := List.exists_cons_of_ne_nil h4
  simp [load_fonts_info, h1, h2, h3]

/-- The not-found message and the not-a-directory message differ at their
fifth character, whatever the path is. -/
theorem notfound_ne_notdir (d : String) :
    "错误: 目录 '" ++ d ++ "' 不存在" ≠ "错误: '" ++ d ++ "' 不是一个目录" := by
  intro h
  have h4 : some '目' = some (Char.ofNat 39) := by
    calc some '目' = ("错误: 目录 '" ++ d ++ "' 不存在").data.get? 4 := rfl
    _ = ("错误: '" ++ d ++ "' 不是一个目录").data.get? 4 := by rw [h]
    _ = some (Char.ofNat 39) := rfl
  exact absurd h4 (by decide)

/-- The empty-directory message starts with a different character than the
not-found message, whatever the paths are. -/
theorem empty_ne_notfound (d d' : String) :
    "目录 '" ++ d ++ "' 中没有找到任何文件" ≠ "错误: 目录 '" ++ d' ++ "' 不存在" := by
  intro h
  have h0 : some '目' = some '错' := by
    calc some '目' = ("目录 '" ++ d ++ "' 中没有找到任何文件").data.get? 0 := rfl
    _ = ("错误: 目录 '" ++ d' ++ "' 不存在").data.get? 0 := by rw [h]
    _ = some '错' := rfl
  exact absurd h0 (by decide)

/-- The empty-directory message starts with a different character than the
not-a-directory message, whatever the paths are. -/
theorem empty_ne_notdir (d d' : String) :
    "目录 '" ++ d ++ "' 中没有找到任何文件" ≠ "错误: '" ++ d' ++ "' 不是一个目录" := by
  intro h
  have h0 : some '目' = some '错' := by
    calc some '目' = ("目录 '" ++ d ++ "' 中没有找到任何文件").data.get? 0 := rfl
    _ = ("错误: '" ++ d' ++ "' 不是一个目录").data.get? 0 := by rw [h]
    _ = some '错' := rfl
  exact absurd h0 (by decide)

/-! ## Claim theorems -/

/-- C2 (code bug): on a size-lookup failure the claim expects the line
`"<name> -> 无法读取文件大小"`, but the code has already streamed `" -> "`
before `std::filesystem::file_size` throws (C++17 sequencing of `<<`), so
the catch block's text is appended after a dangling separator and the
rendered line is `"a.txt ->  -> 无法读取文件大小"`, not the single-marker
line the claim states.  The success path does match the claim. -/
theorem c2_size_failure_double_marker :
    renderEntry ⟨"a.txt", .regular, none⟩ = "a.txt -> " ++ " -> 无法读取文件大小" ∧
    renderEntry ⟨"a.txt", .regular, none⟩ ≠ "a.txt -> 无法读取文件大小" ∧
    renderEntry ⟨"a.txt", .regular, some 12⟩ = "a.txt -> 12 Bytes" := by
  refine ⟨by decide, by decide, by decide⟩

/-- C3 counterexample: a symbolic link whose target is a regular file is
not rendered with the other-type marker, contradicting the claim that
every non-directory, non-regular-file entry — "including symlinks" — gets
`[其他类型]`.  `directory_entry::is_regular_file()` follows symlinks, so
the entry takes the file branch and gets a size line. -/
theorem c3_symlink_counterexample :
    renderEntry ⟨"lnk", .symlink (some .regular), some 7⟩ = "lnk -> 7 Bytes" ∧
    renderEntry ⟨"lnk", .symlink (some .regular), some 7⟩ ≠ "lnk -> [其他类型]" := by
  refine ⟨by decide, by decide⟩

/-- C3 (amended): kinds are decided on the symlink-resolved status of the
entry.  An entry whose resolved status is a directory gets the directory
marker; an entry whose resolved status is neither a regular file nor a
directory (devices, sockets, dangling symlinks, symlinks to such) gets the
other-type marker; a symlink resolving to a regular file takes the
regular-file branch instead. -/
theorem c3_kind_markers (e : DirEntry) :
    (e.statusType = some FileType.directory →
      renderEntry e = e.name ++ " -> [目录]") ∧
    (e.statusType ≠ some FileType.regular → e.statusType ≠ some FileType.directory →
      renderEntry e = e.name ++ " -> [其他类型]") := by
  constructor
  · intro h
    have hf : e.is_regular_file = false := by
      rw [DirEntry.is_regular_file, h]; decide
    have hd : e.is_directory = true := by
      rw [DirEntry.is_directory, h]; decide
    simp [renderEntry, hf, hd]
  · intro h1 h2
    have hf : e.is_regular_file = false := by
      simp [DirEntry.is_regular_file]; exact h1
    have hd : e.is_directory = false := by
      simp [DirEntry.is_directory]; exact h2
    simp [renderEntry, hf, hd]

/-- C3 witness: the amended theorem applied to a plain subdirectory and to
a dangling symlink. -/
theorem c3_kind_markers_witness :
    renderEntry ⟨"b", .directory, none⟩ = "b" ++ " -> [目录]" ∧
    renderEntry ⟨"s", .symlink none, none⟩ = "s" ++ " -> [其他类型]" :=
  ⟨(c3_kind_markers ⟨"b", .directory, none⟩).1 rfl,
   (c3_kind_markers ⟨"s", .symlink none, none⟩).2 (by decide) (by decide)⟩

/-- C4: validation order and messages.  A non-existent path yields the
not-found message whatever `is_directory` would answer; an existing
non-directory yields the distinct not-a-directory message; both messages
contain the path, and the two messages are never equal.  The function is
total, so the error is a normal string result — nothing is thrown past
the boundary. -/
theorem c4_validation_order (d : String) (fs : Fs) :
    (fs.path_exists = false →
      load_fonts_info d fs = "错误: 目录 '" ++ d ++ "' 不存在" ∧
      ∃ b, load_fonts_info d fs = "错误: 目录 '" ++ (d ++ b)) ∧
    (fs.path_exists = true → fs.is_directory = false →
      load_fonts_info d fs = "错误: '" ++ d ++ "' 不是一个目录" ∧
      ∃ b, load_fonts_info d fs = "错误: '" ++ (d ++ b)) ∧
    "错误: 目录 '" ++ d ++ "' 不存在" ≠ "错误: '" ++ d ++ "' 不是一个目录" := by
  refine ⟨fun h1 => ⟨by simp [load_fonts_info, h1], "' 不存在", ?_⟩,
    fun h1 h2 => ⟨by simp [load_fonts_info, h1, h2], "' 不是一个目录", ?_⟩,
    notfound_ne_notdir d⟩
  · rw [← String.append_assoc]; simp [load_fonts_info, h1]
  · rw [← String.append_assoc]; simp [load_fonts_info, h1, h2]

/-- C4 witness: the theorem applied to a non-existent path (with
`is_directory` answering true, showing the existence check wins) and to an
existing non-directory path. -/
theorem c4_validation_order_witness :
    (load_fonts_info "/nope" ⟨false, true, .ok []⟩ =
        "错误: 目录 '" ++ "/nope" ++ "' 不存在" ∧
      ∃ b, load_fonts_info "/nope" ⟨false, true, .ok []⟩ =
        "错误: 目录 '" ++ ("/nope" ++ b)) ∧
    (load_fonts_info "/etc/hosts" ⟨true, false, .ok []⟩ =
        "错误: '" ++ "/etc/hosts" ++ "' 不是一个目录" ∧
      ∃ b, load_fonts_info "/etc/hosts" ⟨true, false, .ok []⟩ =
        "错误: '" ++ ("/etc/hosts" ++ b)) :=
  ⟨(c4_validation_order "/nope" ⟨false, true, .ok []⟩).1 rfl,
   (c4_validation_order "/etc/hosts" ⟨true, false, .ok []⟩).2.1 rfl rfl⟩

/-- C5: a filesystem fault during enumeration is caught and converted into
the single aggregate error string, which contains the underlying error
description; the function is total, so every call returns a string and no
fault propagates past the boundary. -/
theorem c5_enumeration_error (d : String) (fs : Fs) (msg : String)
    (h1 : fs.path_exists = true) (h2 : fs.is_directory = true)
    (h3 : fs.entries = .error msg) :
    load_fonts_info d fs = "访问目录时发生错误: " ++ msg ∧
    ∃ a, load_fonts_info d fs = a ++ msg := by
  refine ⟨by simp [load_fonts_info, h1, h2, h3], "访问目录时发生错误: ",
    by simp [load_fonts_info, h1, h2, h3]⟩

/-- C5 witness: the theorem applied to a directory whose enumeration
throws a permission-denied error. -/
theorem c5_enumeration_error_witness :
    load_fonts_info "/root/private" ⟨true, true, .error "permission denied"⟩ =
      "访问目录时发生错误: " ++ "permission denied" ∧
    ∃ a, load_fonts_info "/root/private" ⟨true, true, .error "permission denied"⟩ =
      a ++ "permission denied" :=
  c5_enumeration_error "/root/private" ⟨true, true, .error "permission denied"⟩
    "permission denied" rfl rfl rfl

/-- C6: an existing directory with zero entries yields the empty-directory
message, which differs from the not-found message and from the
not-a-directory message for every pair of paths. -/
theorem c6_empty_directory (d : String) (fs : Fs)
    (h1 : fs.path_exists = true) (h2 : fs.is_directory = true)
    (h3 : fs.entries = .ok []) :
    load_fonts_info d fs = "目录 '" ++ d ++ "' 中没有找到任何文件" ∧
    (∀ d', load_fonts_info d fs ≠ "错误: 目录 '" ++ d' ++ "' 不存在") ∧
    (∀ d', load_fonts_info d fs ≠ "错误: '" ++ d' ++ "' 不是一个目录") := by
  have he : load_fonts_info d fs = "目录 '" ++ d ++ "' 中没有找到任何文件" := by
    simp [load_fonts_info, h1, h2, h3]
  refine ⟨he, fun d' => ?_, fun d' => ?_⟩
  · rw [he]; exact empty_ne_notfound d d'
  · rw [he]; exact empty_ne_notdir d d'

/-- C6 witness: the theorem applied to an empty directory. -/
theorem c6_empty_directory_witness :
    load_fonts_info "/tmp/empty" ⟨true, true, .ok []⟩ =
      "目录 '" ++ "/tmp/empty" ++ "' 中没有找到任何文件" ∧
    (∀ d', load_fonts_info "/tmp/empty" ⟨true, true, .ok []⟩ ≠
      "错误: 目录 '" ++ d' ++ "' 不存在") ∧
    (∀ d', load_fonts_info "/tmp/empty" ⟨true, true, .ok []⟩ ≠
      "错误: '" ++ d' ++ "' 不是一个目录") :=
  c6_empty_directory "/tmp/empty" ⟨true, true, .ok []⟩ rfl rfl rfl

/-- C8: the report is a pure function of the path and of the filesystem
state; two calls over the same path and unchanged state return identical
strings. -/
theorem c8_deterministic (d : String) (fs : Fs) (r1 r2 : String)
    (h1 : r1 = load_fonts_info d fs) (h2 : r2 = load_fonts_info d fs) :
    r1 = r2 := by
  rw [h1, h2]

/-- C8 witness: two calls on the same concrete path and state agree. -/
theorem c8_deterministic_witness :
    load_fonts_info "/tmp/x" ⟨true, true, .ok [⟨"a.txt", .regular, some 12⟩]⟩ =
      load_fonts_info "/tmp/x" ⟨true, true, .ok [⟨"a.txt", .regular, some 12⟩]⟩ :=
  c8_deterministic "/tmp/x" ⟨true, true, .ok [⟨"a.txt", .regular, some 12⟩]⟩
    _ _ rfl rfl

/-- C9: the JNI bridge returns exactly `NewStringUTF` of the reporter's
result on the converted input — the handle it returns carries precisely
`load_fonts_info` of the text carried by the incoming handle, with no
other failure path and no alteration. -/
theorem c9_bridge_pass_through (fs : Fs) (j : JString) :
    Java_androidx_appcompat_demo_MainActivity_loadFontsInfo fs j =
      newStringUTF (load_fonts_info (string_from_jstring j) fs) ∧
    (Java_androidx_appcompat_demo_MainActivity_loadFontsInfo fs j).utf =
      load_fonts_info j.utf fs :=
  ⟨rfl, rfl⟩

/-! ## More helper lemmas for the report-shape claims -/

/-- Appending a string with non-empty contents keeps contents non-empty. -/
theorem str_append_data_ne_nil (a b : String) (h : b.data ≠ []) :
    (a ++ b).data ≠ [] := by
  rw [String.data_append]
  intro hc
  exact h (List.append_eq_nil.mp hc).2

/-- The last character of an appended string is that of its right part
when the right part is non-empty. -/
theorem str_getLast?_append (a b : String) (h : b.data ≠ []) :
    (a ++ b).data.getLast? = b.data.getLast? := by
  rw [String.data_append]
  exact List.getLast?_append_of_ne_nil a.data h

/-- Every rendered entry line is the entry name followed by a non-empty
tail whose last character is never a newline. -/
theorem renderEntry_eq_name_append (e : DirEntry) :
    ∃ t : String, renderEntry e = e.name ++ t ∧ t.data ≠ [] ∧
      t.data.getLast? ≠ some ('\n') := by
  unfold renderEntry
  by_cases hf : e.is_regular_file
  · cases hs : e.size with
    | some s =>
        refine ⟨" -> " ++ toString s ++ " Bytes", by simp [hf, hs], ?_, ?_⟩
        · exact str_append_data_ne_nil _ " Bytes" (by decide)
        · rw [str_getLast?_append _ " Bytes" (by decide)]; decide
    | none =>
        refine ⟨" -> " ++ " -> 无法读取文件大小", by simp [hf, hs], ?_, ?_⟩
        · exact str_append_data_ne_nil _ " -> 无法读取文件大小" (by decide)
        · rw [str_getLast?_append _ " -> 无法读取文件大小" (by decide)]; decide
  · by_cases hd : e.is_directory
    · exact ⟨" -> [目录]", by simp [hf, hd], by decide, by decide⟩
    · exact ⟨" -> [其他类型]", by simp [hf, hd], by decide, by decide⟩

/-- Joining a list extended by one element appends one separator and the
element after the joined prefix. -/
theorem join_concat (l : List String) (y sep : String) (h : l ≠ []) :
    join (l ++ [y]) sep = join l sep ++ sep ++ y := by
  obtain ⟨x, xs, rfl⟩ := List.exists_cons_of_ne_nil h
  simp [join, List.foldl_concat]

/-- C1: on the success path the header's stated count is literally the
number of rendered entry lines, and that number equals the number of
directory entries N. -/
theorem c1_header_count_eq_rendered_lines (d : String) (fs : Fs)
    (entries : List DirEntry)
    (h1 : fs.path_exists = true) (h2 : fs.is_directory = true)
    (h3 : fs.entries = .ok entries) (hN : 1 ≤ entries.length) :
    ∃ lines : List String,
      load_fonts_info d fs =
        "目录: " ++ d ++ "\n" ++ "找到 " ++ toString lines.length ++
          " 个项目:\n\n" ++ join lines "\n" ∧
      lines.length = entries.length := by
  have h4 : entries ≠ [] := by
    intro hc
    rw [hc] at hN
    exact absurd hN (by decide)
  exact ⟨entries.map renderEntry, load_fonts_info_ok d fs entries h1 h2 h3 h4,
    List.length_map entries renderEntry⟩

/-- C1 witness: a directory with two entries, a file and a subdirectory. -/
theorem c1_header_count_witness :
    ∃ lines : List String,
      load_fonts_info "/tmp/x"
        ⟨true, true, .ok [⟨"a.txt", .regular, some 12⟩, ⟨"b", .directory, none⟩]⟩ =
        "目录: " ++ "/tmp/x" ++ "\n" ++ "找到 " ++ toString lines.length ++
          " 个项目:\n\n" ++ join lines "\n" ∧
      lines.length =
        ([⟨"a.txt", .regular, some 12⟩, ⟨"b", .directory, none⟩] : List DirEntry).length :=
  c1_header_count_eq_rendered_lines "/tmp/x"
    ⟨true, true, .ok [⟨"a.txt", .regular, some 12⟩, ⟨"b", .directory, none⟩]⟩
    [⟨"a.txt", .regular, some 12⟩, ⟨"b", .directory, none⟩]
    rfl rfl rfl (by decide)

/-- C7: the success report is, in order, a header line containing the
path, a line with the total entry count, a blank line, and the entry
lines joined by newline. -/
theorem c7_report_layout (d : String) (fs : Fs) (entries : List DirEntry)
    (h1 : fs.path_exists = true) (h2 : fs.is_directory = true)
    (h3 : fs.entries = .ok entries) (h4 : entries ≠ []) :
    load_fonts_info d fs =
      ("目录: " ++ d ++ "\n") ++
        ("找到 " ++ toString entries.length ++ " 个项目:" ++ "\n") ++
        "\n" ++ join (entries.map renderEntry) "\n" := by
  rw [load_fonts_info_ok d fs entries h1 h2 h3 h4, List.length_map]
  apply String.ext
  simp only [String.data_append, List.append_assoc, List.cons_append,
    List.nil_append]

/-- C7 witness: the layout at a directory with two entries. -/
theorem c7_report_layout_witness :
    load_fonts_info "/tmp/x"
      ⟨true, true, .ok [⟨"a.txt", .regular, some 12⟩, ⟨"b", .directory, none⟩]⟩ =
      ("目录: " ++ "/tmp/x" ++ "\n") ++
        ("找到 " ++
          toString ([⟨"a.txt", .regular, some 12⟩, ⟨"b", .directory, none⟩] :
            List DirEntry).length ++ " 个项目:" ++ "\n") ++
        "\n" ++
        join (([⟨"a.txt", .regular, some 12⟩, ⟨"b", .directory, none⟩] :
          List DirEntry).map renderEntry) "\n" :=
  c7_report_layout "/tmp/x"
    ⟨true, true, .ok [⟨"a.txt", .regular, some 12⟩, ⟨"b", .directory, none⟩]⟩
    [⟨"a.txt", .regular, some 12⟩, ⟨"b", .directory, none⟩]
    rfl rfl rfl (by decide)

/-- C10: on the success path the entry lines are joined with single
newlines and nothing follows the last one — the report ends with the last
entry's line and its final character is that line's final character,
which is never a newline. -/
theorem c10_no_trailing_newline (d : String) (fs : Fs) (entries : List DirEntry)
    (h1 : fs.path_exists = true) (h2 : fs.is_directory = true)
    (h3 : fs.entries = .ok entries) (h4 : entries ≠ []) :
    ∃ E e, entries = E ++ [e] ∧
      (∃ p, load_fonts_info d fs = p ++ renderEntry e) ∧
      (load_fonts_info d fs).data.getLast? = (renderEntry e).data.getLast? ∧
      (load_fonts_info d fs).data.getLast? ≠ some ('\n') := by
  obtain (h0 | ⟨E, e, hEq⟩) := entries.eq_nil_or_concat
  · exact absurd h0 h4
  rw [List.concat_eq_append] at hEq
  subst hEq
  have hok := load_fonts_info_ok d fs (E ++ [e]) h1 h2 h3 h4
  rw [List.map_append] at hok
  simp only [List.map_cons, List.map_nil] at hok
  obtain ⟨t, ht, htn, htl⟩ := renderEntry_eq_name_append e
  have hrn : (renderEntry e).data ≠ [] := by
    rw [ht]; exact str_append_data_ne_nil e.name t htn
  have hrl : (renderEntry e).data.getLast? ≠ some ('\n') := by
    rw [ht, str_getLast?_append e.name t htn]; exact htl
  have hp : ∃ p, load_fonts_info d fs = p ++ renderEntry e := by
    by_cases hE : E = []
    · subst hE
      simp only [List.map_nil, List.nil_append] at hok
      have hj : join [renderEntry e] "\n" = renderEntry e := rfl
      rw [hj] at hok
      exact ⟨_, hok⟩
    · have hmn : E.map renderEntry ≠ [] := by
        intro hc
        exact hE (List.map_eq_nil_iff.mp hc)
      rw [join_concat (E.map renderEntry) (renderEntry e) "\n" hmn] at hok
      rw [← String.append_assoc] at hok
      exact ⟨_, hok⟩
  obtain ⟨p, hp'⟩ := hp
  refine ⟨E, e, rfl, ⟨p, hp'⟩, ?_, ?_⟩
  · rw [hp']
    exact str_getLast?_append p (renderEntry e) hrn
  · rw [hp', str_getLast?_append p (renderEntry e) hrn]
    exact hrl

/-- C10 witness: a directory with a file and a subdirectory; the report
ends with the subdirectory's line and not with a newline. -/
theorem c10_no_trailing_newline_witness :
    ∃ E e, ([⟨"a.txt", .regular, some 12⟩, ⟨"b", .directory, none⟩] :
        List DirEntry) = E ++ [e] ∧
      (∃ p, load_fonts_info "/tmp/x"
          ⟨true, true, .ok [⟨"a.txt", .regular, some 12⟩, ⟨"b", .directory, none⟩]⟩ =
          p ++ renderEntry e) ∧
      (load_fonts_info "/tmp/x"
          ⟨true, true, .ok [⟨"a.txt", .regular, some 12⟩, ⟨"b", .directory, none⟩]⟩).data.getLast? =
        (renderEntry e).data.getLast? ∧
      (load_fonts_info "/tmp/x"
          ⟨true, true, .ok [⟨"a.txt", .regular, some 12⟩, ⟨"b", .directory, none⟩]⟩).data.getLast? ≠
        some ('\n') :=
  c10_no_trailing_newline "/tmp/x"
    ⟨true, true, .ok [⟨"a.txt", .regular, some 12⟩, ⟨"b", .directory, none⟩]⟩
    [⟨"a.txt", .regular, some 12⟩, ⟨"b", .directory, none⟩]
    rfl rfl rfl (by decide)
